import Mathlib

/-!
# Post-processing frame (`atmosphere.go`)

A shallow embedding of `PostProcessingFrame`, its constructor
`NewPostProcessingFrame` and its method `draw`.

The file is straight-line code over a graphics layer: every statement is a call
into a wrapper type (`VertexBuffer`, `IndexBuffer`, `VertexArray`, `Shader`,
`FrameBuffer`, `RenderBuffer`) or into `gl`.  The embedding keeps the program
order by running the calls in a state monad whose state is the log of the
calls made so far.  The wrappers' own bodies are not part of `atmosphere.go`;
what their constructors return is supplied by a `Driver`, about which nothing
is assumed.
-/

namespace Atmosphere

/-! ## Constants and helpers of the `gl` package used by the file -/

namespace gl

/-- The value of `gl.TRIANGLES`. -/
def TRIANGLES : Nat := 0x0004

/-- The value of `gl.UNSIGNED_INT`, the 32-bit unsigned index type. -/
def UNSIGNED_INT : Nat := 0x1405

/-- The value of `gl.COLOR_ATTACHMENT0`. -/
def COLOR_ATTACHMENT0 : Nat := 0x8CE0

/-- The helper `gl.PtrOffset`, which turns a byte offset into the pointer argument
of a draw call; the pointer is represented by the offset. -/
def PtrOffset (offset : Nat) : Nat := offset

end gl

/-! ## Handles

The wrapper types are declared outside `atmosphere.go`.  Each is represented by the
name of its graphics object; `RenderBuffer.id` and `IndexBuffer.count` are the two
fields the file reads. -/

/-- Handle of a vertex buffer. -/
structure VertexBuffer where
  id : Nat
  deriving DecidableEq, Repr

/-- Handle of an index buffer; `count` is the field read by `draw` (an `int32`). -/
structure IndexBuffer where
  id : Nat
  count : Int
  deriving DecidableEq, Repr

/-- Handle of a vertex array. -/
structure VertexArray where
  id : Nat
  deriving DecidableEq, Repr

/-- Handle of a shader program. -/
structure Shader where
  id : Nat
  deriving DecidableEq, Repr

/-- Handle of a framebuffer. -/
structure FrameBuffer where
  id : Nat
  deriving DecidableEq, Repr

/-- Handle of a renderbuffer; `id` is the field read by `NewPostProcessingFrame`. -/
structure RenderBuffer where
  id : Nat
  deriving DecidableEq, Repr

/-- The aggregate `PostProcessingFrame`, field for field. -/
structure PostProcessingFrame where
  va : VertexArray
  fb : FrameBuffer
  rb : RenderBuffer
  ib : IndexBuffer
  shader : Shader
  deriving DecidableEq, Repr

/-! ## The log of calls -/

/-- One call into the graphics layer, with its arguments.  A constructor call also
records the handle it returned.  `indexBufferUnbind` is made nowhere in
`atmosphere.go`; it is in the vocabulary so that its absence can be stated. -/
inductive Call where
  | newVertexBuffer (data : List ℚ) (ret : VertexBuffer)
  | newIndexBuffer (data : List Nat) (ret : IndexBuffer)
  | newVertexArray (layout : List Int) (ret : VertexArray)
  | newShader (path : String) (ret : Shader)
  | newFrameBuffer (w h : Nat) (ret : FrameBuffer)
  | newRenderBuffer (w h : Nat) (ret : RenderBuffer)
  | vertexBufferBind (vb : VertexBuffer)
  | vertexArrayBind (va : VertexArray)
  | vertexArrayUnbind (va : VertexArray)
  | indexBufferBind (ib : IndexBuffer)
  | indexBufferUnbind (ib : IndexBuffer)
  | shaderBind (s : Shader)
  | shaderUnbind (s : Shader)
  | setUniform1i (s : Shader) (name : String) (value : Int)
  | addColorTexture (fb : FrameBuffer) (slot w h attachment : Nat)
  | addRenderBuffer (fb : FrameBuffer) (id : Nat)
  | drawElements (mode : Nat) (count : Int) (xtype : Nat) (offset : Nat)
  deriving DecidableEq, Repr

/-- What the constructors of the wrapper types return.  Each result may depend on
the arguments and on every call made before it. -/
structure Driver where
  vertexBuffer : List Call → List ℚ → VertexBuffer
  indexBuffer : List Call → List Nat → IndexBuffer
  vertexArray : List Call → List Int → VertexArray
  shader : List Call → String → Shader
  frameBuffer : List Call → Nat → Nat → FrameBuffer
  renderBuffer : List Call → Nat → Nat → RenderBuffer

/-- Computations over the graphics context: the state is the log of calls. -/
abbrev Gfx := StateM (List Call)

/-- Append one call to the log. -/
def emit (c : Call) : Gfx Unit :=
  modify fun log => log ++ [c]

/-! ## The wrapper calls made by the file -/

def NewVertexBuffer (d : Driver) (data : List ℚ) : Gfx VertexBuffer := do
  let vb := d.vertexBuffer (← get) data
  emit (.newVertexBuffer data vb)
  return vb

def NewIndexBuffer (d : Driver) (data : List Nat) : Gfx IndexBuffer := do
  let ib := d.indexBuffer (← get) data
  emit (.newIndexBuffer data ib)
  return ib

def NewVertexArray (d : Driver) (layout : List Int) : Gfx VertexArray := do
  let va := d.vertexArray (← get) layout
  emit (.newVertexArray layout va)
  return va

def NewShader (d : Driver) (path : String) : Gfx Shader := do
  let s := d.shader (← get) path
  emit (.newShader path s)
  return s

def NewFrameBuffer (d : Driver) (w h : Nat) : Gfx FrameBuffer := do
  let fb := d.frameBuffer (← get) w h
  emit (.newFrameBuffer w h fb)
  return fb

def NewRenderBuffer (d : Driver) (w h : Nat) : Gfx RenderBuffer := do
  let rb := d.renderBuffer (← get) w h
  emit (.newRenderBuffer w h rb)
  return rb

def VertexBuffer.bind (vb : VertexBuffer) : Gfx Unit := emit (.vertexBufferBind vb)

def VertexArray.bind (va : VertexArray) : Gfx Unit := emit (.vertexArrayBind va)

def VertexArray.unbind (va : VertexArray) : Gfx Unit := emit (.vertexArrayUnbind va)

def IndexBuffer.bind (ib : IndexBuffer) : Gfx Unit := emit (.indexBufferBind ib)

def Shader.bind (s : Shader) : Gfx Unit := emit (.shaderBind s)

def Shader.unbind (s : Shader) : Gfx Unit := emit (.shaderUnbind s)

def Shader.setUniform1i (s : Shader) (name : String) (value : Int) : Gfx Unit :=
  emit (.setUniform1i s name value)

def FrameBuffer.addColorTexture (fb : FrameBuffer) (slot w h attachment : Nat) : Gfx Unit :=
  emit (.addColorTexture fb slot w h attachment)

def FrameBuffer.addRenderBuffer (fb : FrameBuffer) (id : Nat) : Gfx Unit :=
  emit (.addRenderBuffer fb id)

def gl.DrawElements (mode : Nat) (count : Int) (xtype : Nat) (indices : Nat) : Gfx Unit :=
  emit (.drawElements mode count xtype indices)

/-! ## `NewPostProcessingFrame` and `draw` -/

/-- The local `vertices` of `NewPostProcessingFrame`.  The literals are `-1.0`, `0.0`
and `1.0`, each exact in `float32`. -/
def NewPostProcessingFrame.vertices : List ℚ :=
  [ 1, -1, 1, 0,
    -1, -1, 0, 0,
    -1, 1, 0, 1,
    1, 1, 1, 1 ]

/-- The local `indices` of `NewPostProcessingFrame`. -/
def NewPostProcessingFrame.indices : List Nat :=
  [ 3, 2, 1,
    3, 1, 0 ]

/-- The constructor `NewPostProcessingFrame(w, h, shaderPath)`. -/
def NewPostProcessingFrame (d : Driver) (w h : Nat) (shaderPath : String) :
    Gfx PostProcessingFrame := do
  let vb ← NewVertexBuffer d NewPostProcessingFrame.vertices
  let ib ← NewIndexBuffer d NewPostProcessingFrame.indices
  vb.bind
  let va ← NewVertexArray d [2, 2]
  va.bind
  let shader ← NewShader d shaderPath
  let fb ← NewFrameBuffer d w h
  fb.addColorTexture 1 w h gl.COLOR_ATTACHMENT0
  let rb ← NewRenderBuffer d w h
  fb.addRenderBuffer rb.id
  let ppf : PostProcessingFrame := ⟨va, fb, rb, ib, shader⟩
  ppf.shader.bind
  ppf.shader.setUniform1i "screenTexture" 1
  return ppf

/-- The method `draw`. -/
def PostProcessingFrame.draw (ppf : PostProcessingFrame) : Gfx Unit := do
  ppf.shader.bind
  ppf.va.bind
  ppf.ib.bind
  gl.DrawElements gl.TRIANGLES ppf.ib.count gl.UNSIGNED_INT (gl.PtrOffset 0)
  ppf.shader.unbind
  ppf.va.unbind

/-! ## Observing a log -/

/-- The calls a computation appends to the log it is started on. -/
def callsOf {α : Type} (m : Gfx α) (log : List Call) : List Call :=
  (m.run log).2.drop log.length

/-- The value a computation returns when started on a log. -/
def resultOf {α : Type} (m : Gfx α) (log : List Call) : α :=
  (m.run log).1

/-- Which function a call is a call of. -/
inductive Kind where
  | newVertexBuffer | newIndexBuffer | newVertexArray | newShader | newFrameBuffer
  | newRenderBuffer | vertexBufferBind | vertexArrayBind | vertexArrayUnbind
  | indexBufferBind | indexBufferUnbind | shaderBind | shaderUnbind | setUniform1i
  | addColorTexture | addRenderBuffer | drawElements
  deriving DecidableEq, Repr

/-- The function called. -/
def Call.kind : Call → Kind
  | .newVertexBuffer _ _ => .newVertexBuffer
  | .newIndexBuffer _ _ => .newIndexBuffer
  | .newVertexArray _ _ => .newVertexArray
  | .newShader _ _ => .newShader
  | .newFrameBuffer _ _ _ => .newFrameBuffer
  | .newRenderBuffer _ _ _ => .newRenderBuffer
  | .vertexBufferBind _ => .vertexBufferBind
  | .vertexArrayBind _ => .vertexArrayBind
  | .vertexArrayUnbind _ => .vertexArrayUnbind
  | .indexBufferBind _ => .indexBufferBind
  | .indexBufferUnbind _ => .indexBufferUnbind
  | .shaderBind _ => .shaderBind
  | .shaderUnbind _ => .shaderUnbind
  | .setUniform1i _ _ _ => .setUniform1i
  | .addColorTexture _ _ _ _ _ => .addColorTexture
  | .addRenderBuffer _ _ => .addRenderBuffer
  | .drawElements _ _ _ _ => .drawElements

/-- The calls of one kind in a log, in order. -/
def ofKind (k : Kind) (cs : List Call) : List Call :=
  cs.filter fun c => c.kind = k

/-- What is bound at some point of a log: the shader, vertex array and index buffer
last bound and not unbound since. -/
structure Bound where
  shader : Option Shader
  va : Option VertexArray
  ib : Option IndexBuffer
  deriving DecidableEq, Repr

/-- The effect of one call on what is bound. -/
def Bound.step (b : Bound) : Call → Bound
  | .shaderBind s => { b with shader := some s }
  | .shaderUnbind _ => { b with shader := none }
  | .vertexArrayBind va => { b with va := some va }
  | .vertexArrayUnbind _ => { b with va := none }
  | .indexBufferBind ib => { b with ib := some ib }
  | .indexBufferUnbind _ => { b with ib := none }
  | _ => b

/-- What is bound after a log. -/
def Bound.after (b : Bound) (cs : List Call) : Bound :=
  cs.foldl Bound.step b

/-- Every draw call of the log is issued while a shader and a vertex array are bound. -/
def drawsWhileBound (b : Bound) : List Call → Bool
  | [] => true
  | c :: cs =>
    (c.kind != Kind.drawElements || (b.shader.isSome && b.va.isSome))
      && drawsWhileBound (b.step c) cs

/-- Every constructor call of `cs`, made after `log`, recorded the handle the driver
gave for its arguments on the log before it. -/
def answeredBy (d : Driver) : List Call → List Call → Bool
  | _, [] => true
  | log, c :: cs =>
    (match c with
      | .newVertexBuffer data ret => decide (ret = d.vertexBuffer log data)
      | .newIndexBuffer data ret => decide (ret = d.indexBuffer log data)
      | .newVertexArray layout ret => decide (ret = d.vertexArray log layout)
      | .newShader path ret => decide (ret = d.shader log path)
      | .newFrameBuffer w h ret => decide (ret = d.frameBuffer log w h)
      | .newRenderBuffer w h ret => decide (ret = d.renderBuffer log w h)
      | _ => true)
      && answeredBy d (log ++ [c]) cs

/-- The data of a `NewVertexBuffer` call. -/
def Call.vertexData : Call → Option (List ℚ)
  | .newVertexBuffer data _ => some data
  | _ => none

/-- The data of a `NewIndexBuffer` call. -/
def Call.indexData : Call → Option (List Nat)
  | .newIndexBuffer data _ => some data
  | _ => none

/-- The layout of a `NewVertexArray` call. -/
def Call.layout : Call → Option (List Int)
  | .newVertexArray layout _ => some layout
  | _ => none

/-! ## Reading the quad

The layout `[2, 2]` gives each vertex two attributes of two components: the position
`(x, y)` and the texture coordinate `(u, v)`. -/

/-- Number of components of one vertex under a layout. -/
def componentsPerVertex (layout : List Int) : Int := layout.sum

/-- Component `k` of vertex `i` in interleaved data of four components per vertex. -/
def component (data : List ℚ) (i k : Nat) : ℚ := data.getD (4 * i + k) 0

/-- Position `(x, y)` of vertex `i` of the quad. -/
def position (i : Nat) : ℚ × ℚ :=
  (component NewPostProcessingFrame.vertices i 0, component NewPostProcessingFrame.vertices i 1)

/-- Texture coordinate `(u, v)` of vertex `i` of the quad. -/
def texcoord (i : Nat) : ℚ × ℚ :=
  (component NewPostProcessingFrame.vertices i 2, component NewPostProcessingFrame.vertices i 3)

/-- The three vertex indices of triangle `k` of the index list. -/
def triangle (k : Nat) : List Nat :=
  (NewPostProcessingFrame.indices.drop (3 * k)).take 3

/-- Corner `j` (0, 1 or 2) of triangle `k`, as a position. -/
def corner (k j : Nat) : ℚ × ℚ := position ((triangle k).getD j 0)

/-- Twice the signed area of the triangle `a b p`: positive when `p` lies to the left
of the directed edge from `a` to `b`. -/
def orient (a b p : ℚ × ℚ) : ℚ :=
  (b.1 - a.1) * (p.2 - a.2) - (p.1 - a.1) * (b.2 - a.2)

/-- Signed area of triangle `k`; positive for counter-clockwise winding. -/
def signedArea (k : Nat) : ℚ := orient (corner k 0) (corner k 1) (corner k 2) / 2

/-- The point `p` lies in the closed triangle `k` (for counter-clockwise winding). -/
def inTriangle (k : Nat) (p : ℚ × ℚ) : Prop :=
  0 ≤ orient (corner k 0) (corner k 1) p ∧ 0 ≤ orient (corner k 1) (corner k 2) p
    ∧ 0 ≤ orient (corner k 2) (corner k 0) p

/-- The point `p` lies strictly inside triangle `k` (for counter-clockwise winding). -/
def inInterior (k : Nat) (p : ℚ × ℚ) : Prop :=
  0 < orient (corner k 0) (corner k 1) p ∧ 0 < orient (corner k 1) (corner k 2) p
    ∧ 0 < orient (corner k 2) (corner k 0) p

/-- Squared distance between two points. -/
def distSq (a b : ℚ × ℚ) : ℚ := (b.1 - a.1) ^ 2 + (b.2 - a.2) ^ 2

/-- A concrete driver: every handle is numbered by the length of the log it is created
on, and an index buffer counts the indices it is given. -/
def countingDriver : Driver where
  vertexBuffer log _ := ⟨log.length + 1⟩
  indexBuffer log data := ⟨log.length + 1, data.length⟩
  vertexArray log _ := ⟨log.length + 1⟩
  shader log _ := ⟨log.length + 1⟩
  frameBuffer log _ _ := ⟨log.length + 1⟩
  renderBuffer log _ _ := ⟨log.length + 1⟩

/-! ## The logs of the two procedures -/

/-- The calls `draw` makes, as appended to the log. -/
theorem draw_log (ppf : PostProcessingFrame) (log : List Call) :
    (ppf.draw.run log).2 = log ++
      [ .shaderBind ppf.shader, .vertexArrayBind ppf.va, .indexBufferBind ppf.ib,
        .drawElements gl.TRIANGLES ppf.ib.count gl.UNSIGNED_INT 0,
        .shaderUnbind ppf.shader, .vertexArrayUnbind ppf.va ] := by
  simp [PostProcessingFrame.draw, Shader.bind, Shader.unbind, VertexArray.bind,
    VertexArray.unbind, IndexBuffer.bind, gl.DrawElements, gl.PtrOffset, emit,
    StateT.run, bind, StateT.bind, modify, modifyGet, MonadStateOf.modifyGet,
    StateT.modifyGet, pure, StateT.pure]

/-- The calls `draw` makes. -/
theorem draw_calls (ppf : PostProcessingFrame) (log : List Call) :
    callsOf ppf.draw log =
      [ .shaderBind ppf.shader, .vertexArrayBind ppf.va, .indexBufferBind ppf.ib,
        .drawElements gl.TRIANGLES ppf.ib.count gl.UNSIGNED_INT 0,
        .shaderUnbind ppf.shader, .vertexArrayUnbind ppf.va ] := by
  unfold callsOf
  rw [draw_log, List.drop_left]

/-- The run of `NewPostProcessingFrame`: the frame returned and the log left. -/
theorem new_run (d : Driver) (w h : Nat) (p : String) (log : List Call) :
    (NewPostProcessingFrame d w h p).run log =
      let vb := d.vertexBuffer log NewPostProcessingFrame.vertices
      let l1 := log ++ [.newVertexBuffer NewPostProcessingFrame.vertices vb]
      let ib := d.indexBuffer l1 NewPostProcessingFrame.indices
      let l2 := l1 ++ [.newIndexBuffer NewPostProcessingFrame.indices ib, .vertexBufferBind vb]
      let va := d.vertexArray l2 [2, 2]
      let l3 := l2 ++ [.newVertexArray [2, 2] va, .vertexArrayBind va]
      let sh := d.shader l3 p
      let l4 := l3 ++ [.newShader p sh]
      let fb := d.frameBuffer l4 w h
      let l5 := l4 ++ [.newFrameBuffer w h fb, .addColorTexture fb 1 w h gl.COLOR_ATTACHMENT0]
      let rb := d.renderBuffer l5 w h
      (⟨va, fb, rb, ib, sh⟩,
        l5 ++ [.newRenderBuffer w h rb, .addRenderBuffer fb rb.id, .shaderBind sh,
          .setUniform1i sh "screenTexture" 1]) := by
  simp [NewPostProcessingFrame, NewVertexBuffer, NewIndexBuffer, NewVertexArray, NewShader,
    NewFrameBuffer, NewRenderBuffer, VertexBuffer.bind, VertexArray.bind, Shader.bind,
    Shader.setUniform1i, FrameBuffer.addColorTexture, FrameBuffer.addRenderBuffer, emit,
    StateT.run, bind, StateT.bind, modify, modifyGet, MonadStateOf.modifyGet,
    StateT.modifyGet, pure, StateT.pure, get, getThe, MonadStateOf.get, StateT.get]

/-- The calls `NewPostProcessingFrame` makes, in terms of the frame it returns. -/
theorem new_calls (d : Driver) (w h : Nat) (p : String) (log : List Call) :
    ∃ vb : VertexBuffer,
      callsOf (NewPostProcessingFrame d w h p) log =
        [ .newVertexBuffer NewPostProcessingFrame.vertices vb,
          .newIndexBuffer NewPostProcessingFrame.indices
            (resultOf (NewPostProcessingFrame d w h p) log).ib,
          .vertexBufferBind vb,
          .newVertexArray [2, 2] (resultOf (NewPostProcessingFrame d w h p) log).va,
          .vertexArrayBind (resultOf (NewPostProcessingFrame d w h p) log).va,
          .newShader p (resultOf (NewPostProcessingFrame d w h p) log).shader,
          .newFrameBuffer w h (resultOf (NewPostProcessingFrame d w h p) log).fb,
          .addColorTexture (resultOf (NewPostProcessingFrame d w h p) log).fb 1 w h
            gl.COLOR_ATTACHMENT0,
          .newRenderBuffer w h (resultOf (NewPostProcessingFrame d w h p) log).rb,
          .addRenderBuffer (resultOf (NewPostProcessingFrame d w h p) log).fb
            (resultOf (NewPostProcessingFrame d w h p) log).rb.id,
          .shaderBind (resultOf (NewPostProcessingFrame d w h p) log).shader,
          .setUniform1i (resultOf (NewPostProcessingFrame d w h p) log).shader
            "screenTexture" 1 ] := by
  refine ⟨d.vertexBuffer log NewPostProcessingFrame.vertices, ?_⟩
  simp only [callsOf, resultOf, new_run, List.append_assoc, List.drop_left]
  rfl

/-- The log after `NewPostProcessingFrame` extends the log before it. -/
theorem new_log (d : Driver) (w h : Nat) (p : String) (log : List Call) :
    ((NewPostProcessingFrame d w h p).run log).2
      = log ++ callsOf (NewPostProcessingFrame d w h p) log := by
  simp only [callsOf, new_run, List.append_assoc, List.drop_left]

/-- The handles recorded in the calls of `NewPostProcessingFrame` are the driver's. -/
theorem new_answered (d : Driver) (w h : Nat) (p : String) (log : List Call) :
    answeredBy d log (callsOf (NewPostProcessingFrame d w h p) log) = true := by
  simp only [callsOf, new_run, List.append_assoc, List.drop_left]
  simp [answeredBy]

/-! ## `draw` -/

/-- C1: one call of `draw` issues exactly one `gl.DrawElements` call, and that call has
mode `TRIANGLES`, count `ppf.ib.count`, index type `UNSIGNED_INT` and byte offset 0. -/
theorem draw_issues_one_drawElements (ppf : PostProcessingFrame) (log : List Call) :
    ofKind Kind.drawElements (callsOf ppf.draw log)
        = [Call.drawElements gl.TRIANGLES ppf.ib.count gl.UNSIGNED_INT 0]
      ∧ (ofKind Kind.drawElements (callsOf ppf.draw log)).length = 1
      ∧ gl.TRIANGLES = 0x0004 ∧ gl.UNSIGNED_INT = 0x1405 := by
  rw [draw_calls]
  simp [ofKind, Call.kind, gl.TRIANGLES, gl.UNSIGNED_INT]

/-- C2: in the calls of `draw` the shader and the vertex array are both bound before the
one indexed draw and both unbound after it: the calls split as `pre`, the draw, `post`,
where `pre` binds both and unbinds neither, `post` unbinds both and binds neither, and
neither part draws; and whatever was bound on entry, every draw call of the sequence is
issued while a shader and a vertex array are bound. -/
theorem draw_binds_then_draws_then_unbinds (ppf : PostProcessingFrame) (log : List Call)
    (b : Bound) :
    (∃ pre post : List Call,
      callsOf ppf.draw log
          = pre ++ [Call.drawElements gl.TRIANGLES ppf.ib.count gl.UNSIGNED_INT 0] ++ post
        ∧ Call.shaderBind ppf.shader ∈ pre ∧ Call.vertexArrayBind ppf.va ∈ pre
        ∧ ofKind Kind.shaderUnbind pre = [] ∧ ofKind Kind.vertexArrayUnbind pre = []
        ∧ ofKind Kind.drawElements pre = []
        ∧ Call.shaderUnbind ppf.shader ∈ post ∧ Call.vertexArrayUnbind ppf.va ∈ post
        ∧ ofKind Kind.shaderBind post = [] ∧ ofKind Kind.vertexArrayBind post = []
        ∧ ofKind Kind.drawElements post = []
        ∧ (b.after pre).shader = some ppf.shader ∧ (b.after pre).va = some ppf.va
        ∧ (b.after (callsOf ppf.draw log)).shader = none
        ∧ (b.after (callsOf ppf.draw log)).va = none)
      ∧ drawsWhileBound b (callsOf ppf.draw log) = true := by
  rw [draw_calls]
  refine ⟨⟨[.shaderBind ppf.shader, .vertexArrayBind ppf.va, .indexBufferBind ppf.ib],
    [.shaderUnbind ppf.shader, .vertexArrayUnbind ppf.va], ?_⟩, ?_⟩
  · simp [ofKind, Call.kind, Bound.after, Bound.step]
  · simp [drawsWhileBound, Call.kind, Bound.step]

/-- C10: the call sequence of `draw` is exactly `shader.bind`, `va.bind`, `ib.bind`,
`DrawElements`, `shader.unbind`, `va.unbind`: the index buffer is bound once and never
unbound (it is left bound when `draw` returns), while the shader and the vertex array
are each bound once and unbound once. -/
theorem draw_leaves_index_buffer_bound (ppf : PostProcessingFrame) (log : List Call)
    (b : Bound) :
    callsOf ppf.draw log =
        [ Call.shaderBind ppf.shader, Call.vertexArrayBind ppf.va,
          Call.indexBufferBind ppf.ib,
          Call.drawElements gl.TRIANGLES ppf.ib.count gl.UNSIGNED_INT 0,
          Call.shaderUnbind ppf.shader, Call.vertexArrayUnbind ppf.va ]
      ∧ ofKind Kind.indexBufferBind (callsOf ppf.draw log) = [Call.indexBufferBind ppf.ib]
      ∧ ofKind Kind.indexBufferUnbind (callsOf ppf.draw log) = []
      ∧ ofKind Kind.shaderBind (callsOf ppf.draw log) = [Call.shaderBind ppf.shader]
      ∧ ofKind Kind.shaderUnbind (callsOf ppf.draw log) = [Call.shaderUnbind ppf.shader]
      ∧ ofKind Kind.vertexArrayBind (callsOf ppf.draw log) = [Call.vertexArrayBind ppf.va]
      ∧ ofKind Kind.vertexArrayUnbind (callsOf ppf.draw log)
          = [Call.vertexArrayUnbind ppf.va]
      ∧ b.after (callsOf ppf.draw log) = ⟨none, none, some ppf.ib⟩ := by
  rw [draw_calls]
  simp [ofKind, Call.kind, Bound.after, Bound.step]

/-! ## Values of the quad data -/

/-- Values of the four positions. -/
theorem position_values :
    position 0 = (1, -1) ∧ position 1 = (-1, -1) ∧ position 2 = (-1, 1)
      ∧ position 3 = (1, 1) := by
  simp [position, component, NewPostProcessingFrame.vertices]

/-- Values of the corners of the two triangles. -/
theorem corner_values :
    corner 0 0 = (1, 1) ∧ corner 0 1 = (-1, 1) ∧ corner 0 2 = (-1, -1)
      ∧ corner 1 0 = (1, 1) ∧ corner 1 1 = (-1, -1) ∧ corner 1 2 = (1, -1) := by
  simp [corner, triangle, NewPostProcessingFrame.indices, position, component,
    NewPostProcessingFrame.vertices]

/-! ## `NewPostProcessingFrame` -/

/-- The sides and diagonals of the quad, taking the vertices in the order 0, 1, 2, 3. -/
theorem quad_sides :
    (∀ i : Fin 4, distSq (position i.val) (position ((i.val + 1) % 4)) = 4)
      ∧ distSq (position 0) (position 2) = 8 ∧ distSq (position 1) (position 3) = 8 := by
  obtain ⟨h0, h1, h2, h3⟩ := position_values
  refine ⟨?_, ?_, ?_⟩
  · intro i
    fin_cases i <;> simp [distSq, h0, h1, h2, h3] <;> norm_num
  · simp [distSq, h0, h2]; norm_num
  · simp [distSq, h1, h3]; norm_num

/-- The closed square from -1 to 1 is the union of the two closed triangles. -/
theorem square_iff_inTriangle (q : ℚ × ℚ) :
    (-1 ≤ q.1 ∧ q.1 ≤ 1 ∧ -1 ≤ q.2 ∧ q.2 ≤ 1) ↔ (inTriangle 0 q ∨ inTriangle 1 q) := by
  obtain ⟨c00, c01, c02, c10, c11, c12⟩ := corner_values
  obtain ⟨x, y⟩ := q
  simp only [inTriangle, orient, c00, c01, c02, c10, c11, c12]
  constructor
  · rintro ⟨hx0, hx1, hy0, hy1⟩
    rcases le_total x y with hxy | hxy
    · left; refine ⟨?_, ?_, ?_⟩ <;> linarith
    · right; refine ⟨?_, ?_, ?_⟩ <;> linarith
  · rintro (⟨e1, e2, e3⟩ | ⟨e1, e2, e3⟩) <;>
      refine ⟨?_, ?_, ?_, ?_⟩ <;> linarith

/-- C3, as stated, fails: the quad built is not a unit quad.  On a concrete run the one
vertex buffer created holds the quad data, whose four sides all have squared length 4
(length 2, not 1), and the two triangles have total area 4, not 1. -/
theorem new_quad_not_unit :
    (callsOf (NewPostProcessingFrame countingDriver 800 600 "post.frag") []).filterMap
        Call.vertexData = [NewPostProcessingFrame.vertices]
      ∧ (callsOf (NewPostProcessingFrame countingDriver 800 600 "post.frag") []).filterMap
        Call.indexData = [NewPostProcessingFrame.indices]
      ∧ (∀ i : Fin 4, distSq (position i.val) (position ((i.val + 1) % 4)) = 2 ^ 2)
      ∧ ¬ (∀ i : Fin 4, distSq (position i.val) (position ((i.val + 1) % 4)) = 1 ^ 2)
      ∧ signedArea 0 + signedArea 1 = 4
      ∧ signedArea 0 + signedArea 1 ≠ 1 := by
  obtain ⟨vb, hcs⟩ := new_calls countingDriver 800 600 "post.frag" []
  obtain ⟨c00, c01, c02, c10, c11, c12⟩ := corner_values
  obtain ⟨hs, -, -⟩ := quad_sides
  have a0 : signedArea 0 = 2 := by
    simp only [signedArea, orient, c00, c01, c02]; norm_num
  have a1 : signedArea 1 = 2 := by
    simp only [signedArea, orient, c10, c11, c12]; norm_num
  refine ⟨?_, ?_, ?_, ?_, ?_, ?_⟩
  · rw [hcs]; simp [Call.vertexData]
  · rw [hcs]; simp [Call.indexData]
  · intro i; rw [hs i]; norm_num
  · intro hall
    have h := hall 0
    rw [hs 0] at h
    norm_num at h
  · rw [a0, a1]; norm_num
  · rw [a0, a1]; norm_num

/-- C3, amended: the geometry built by `NewPostProcessingFrame` is a quad of 4 vertices
and 2 triangles via 6 indices, of side 2 rather than 1.  The one vertex buffer it
creates holds the 16 floats of `vertices`, which under the one layout it passes to
`NewVertexArray`, `[2, 2]`, is 4 vertices of 4 components; the one index buffer it
creates holds the 6 entries of `indices`, two triangles of 3, each index less than 4.
The four positions are distinct and are the corners of the square from -1 to 1: the four
sides have length 2 and the diagonals are equal.  Each triangle has three distinct
vertices and signed area 2, and the two triangles together are exactly that square. -/
theorem new_builds_quad (d : Driver) (w h : Nat) (p : String) (log : List Call) :
    ∃ (vs : List ℚ) (ly : List Int) (ix : List Nat),
      (callsOf (NewPostProcessingFrame d w h p) log).filterMap Call.vertexData = [vs]
        ∧ (callsOf (NewPostProcessingFrame d w h p) log).filterMap Call.layout = [ly]
        ∧ (callsOf (NewPostProcessingFrame d w h p) log).filterMap Call.indexData = [ix]
        ∧ vs = NewPostProcessingFrame.vertices ∧ ix = NewPostProcessingFrame.indices
        ∧ vs.length = 16 ∧ ly = [2, 2] ∧ componentsPerVertex ly = 4
        ∧ (vs.length : Int) = 4 * componentsPerVertex ly
        ∧ ix.length = 6 ∧ ix = triangle 0 ++ triangle 1
        ∧ (triangle 0).length = 3 ∧ (triangle 1).length = 3
        ∧ (∀ i ∈ ix, i < 4)
        ∧ ((List.range 4).map position).Nodup
        ∧ (∀ q : ℚ × ℚ, q ∈ (List.range 4).map position
            ↔ (q.1 = -1 ∨ q.1 = 1) ∧ (q.2 = -1 ∨ q.2 = 1))
        ∧ (∀ i : Fin 4, distSq (position i.val) (position ((i.val + 1) % 4)) = 2 ^ 2)
        ∧ distSq (position 0) (position 2) = distSq (position 1) (position 3)
        ∧ (triangle 0).Nodup ∧ (triangle 1).Nodup
        ∧ signedArea 0 = 2 ∧ signedArea 1 = 2
        ∧ (∀ q : ℚ × ℚ, (-1 ≤ q.1 ∧ q.1 ≤ 1 ∧ -1 ≤ q.2 ∧ q.2 ≤ 1)
            ↔ (inTriangle 0 q ∨ inTriangle 1 q)) := by
  obtain ⟨vb, hcs⟩ := new_calls d w h p log
  obtain ⟨h0, h1, h2, h3⟩ := position_values
  obtain ⟨c00, c01, c02, c10, c11, c12⟩ := corner_values
  obtain ⟨hs, hd02, hd13⟩ := quad_sides
  refine ⟨NewPostProcessingFrame.vertices, [2, 2], NewPostProcessingFrame.indices, ?_⟩
  rw [hcs]
  refine ⟨by simp [Call.vertexData], by simp [Call.layout], by simp [Call.indexData],
    rfl, rfl, by simp [NewPostProcessingFrame.vertices], rfl,
    by simp [componentsPerVertex], by simp [componentsPerVertex, NewPostProcessingFrame.vertices],
    by simp [NewPostProcessingFrame.indices],
    by simp [triangle, NewPostProcessingFrame.indices],
    by simp [triangle, NewPostProcessingFrame.indices],
    by simp [triangle, NewPostProcessingFrame.indices],
    by simp [NewPostProcessingFrame.indices], ?_, ?_, ?_, ?_, ?_, ?_, ?_, ?_, ?_⟩
  · simp [List.range, List.range.loop, h0, h1, h2, h3]
    norm_num
  · rintro ⟨x, y⟩
    simp only [List.range, List.range.loop, List.map, h0, h1, h2, h3, List.mem_cons,
      Prod.mk.injEq, List.mem_nil_iff, or_false]
    constructor
    · rintro (⟨rfl, rfl⟩ | ⟨rfl, rfl⟩ | ⟨rfl, rfl⟩ | ⟨rfl, rfl⟩) <;> simp
    · rintro ⟨rfl | rfl, rfl | rfl⟩ <;> simp
  · intro i; rw [hs i]; norm_num
  · rw [hd02, hd13]
  · simp [triangle, NewPostProcessingFrame.indices]
  · simp [triangle, NewPostProcessingFrame.indices]
  · simp only [signedArea, orient, c00, c01, c02]; norm_num
  · simp only [signedArea, orient, c10, c11, c12]; norm_num
  · exact square_iff_inTriangle

/-- C4: for every width, height and shader path, the frame returned by
`NewPostProcessingFrame` has all five fields set to handles created in that same call:
`va` by the one `NewVertexArray` call, on `[2, 2]`; `fb` by the one `NewFrameBuffer`
call, on `w` and `h`; `rb` by the one `NewRenderBuffer` call, on `w` and `h`; `ib` by the
one `NewIndexBuffer` call, on the 6 quad indices; `shader` by the one `NewShader` call,
on the path; and each is what the driver returned for that call. -/
theorem new_creates_all_five (d : Driver) (w h : Nat) (p : String) (log : List Call) :
    ((NewPostProcessingFrame d w h p).run log).2
        = log ++ callsOf (NewPostProcessingFrame d w h p) log
      ∧ ofKind Kind.newVertexArray (callsOf (NewPostProcessingFrame d w h p) log)
        = [Call.newVertexArray [2, 2] (resultOf (NewPostProcessingFrame d w h p) log).va]
      ∧ ofKind Kind.newFrameBuffer (callsOf (NewPostProcessingFrame d w h p) log)
        = [Call.newFrameBuffer w h (resultOf (NewPostProcessingFrame d w h p) log).fb]
      ∧ ofKind Kind.newRenderBuffer (callsOf (NewPostProcessingFrame d w h p) log)
        = [Call.newRenderBuffer w h (resultOf (NewPostProcessingFrame d w h p) log).rb]
      ∧ ofKind Kind.newIndexBuffer (callsOf (NewPostProcessingFrame d w h p) log)
        = [Call.newIndexBuffer [3, 2, 1, 3, 1, 0]
            (resultOf (NewPostProcessingFrame d w h p) log).ib]
      ∧ ofKind Kind.newShader (callsOf (NewPostProcessingFrame d w h p) log)
        = [Call.newShader p (resultOf (NewPostProcessingFrame d w h p) log).shader]
      ∧ answeredBy d log (callsOf (NewPostProcessingFrame d w h p) log) = true := by
  refine ⟨new_log d w h p log, ?_⟩
  obtain ⟨vb, hcs⟩ := new_calls d w h p log
  have ha := new_answered d w h p log
  rw [hcs] at ha ⊢
  refine ⟨?_, ?_, ?_, ?_, ?_, ha⟩ <;>
    simp [ofKind, Call.kind, NewPostProcessingFrame.indices]

/-- C5: `NewPostProcessingFrame` creates one framebuffer, of size `w` by `h`, gives it
exactly one color attachment (one `addColorTexture` call, of size `w` by `h` at
`COLOR_ATTACHMENT0`) and exactly one renderbuffer attachment (one `addRenderBuffer`
call); the id attached is that of the one renderbuffer created, of size `w` by `h`, which
is the returned frame's `rb`, and the framebuffer is the returned frame's `fb`. -/
theorem new_attaches_color_and_renderbuffer (d : Driver) (w h : Nat) (p : String)
    (log : List Call) :
    ofKind Kind.newFrameBuffer (callsOf (NewPostProcessingFrame d w h p) log)
        = [Call.newFrameBuffer w h (resultOf (NewPostProcessingFrame d w h p) log).fb]
      ∧ ofKind Kind.addColorTexture (callsOf (NewPostProcessingFrame d w h p) log)
        = [Call.addColorTexture (resultOf (NewPostProcessingFrame d w h p) log).fb 1 w h
            gl.COLOR_ATTACHMENT0]
      ∧ ofKind Kind.newRenderBuffer (callsOf (NewPostProcessingFrame d w h p) log)
        = [Call.newRenderBuffer w h (resultOf (NewPostProcessingFrame d w h p) log).rb]
      ∧ ofKind Kind.addRenderBuffer (callsOf (NewPostProcessingFrame d w h p) log)
        = [Call.addRenderBuffer (resultOf (NewPostProcessingFrame d w h p) log).fb
            (resultOf (NewPostProcessingFrame d w h p) log).rb.id]
      ∧ gl.COLOR_ATTACHMENT0 = 0x8CE0 := by
  obtain ⟨vb, hcs⟩ := new_calls d w h p log
  rw [hcs]
  simp [ofKind, Call.kind, gl.COLOR_ATTACHMENT0]

/-- C6: `NewPostProcessingFrame` sets the integer uniform `screenTexture` of the
frame's shader exactly once, and the value set equals the slot given to the one
`addColorTexture` call: both are 1. -/
theorem new_sets_screenTexture_to_slot (d : Driver) (w h : Nat) (p : String)
    (log : List Call) :
    ∃ (value : Int) (slot : Nat),
      ofKind Kind.setUniform1i (callsOf (NewPostProcessingFrame d w h p) log)
          = [Call.setUniform1i (resultOf (NewPostProcessingFrame d w h p) log).shader
              "screenTexture" value]
        ∧ ofKind Kind.addColorTexture (callsOf (NewPostProcessingFrame d w h p) log)
          = [Call.addColorTexture (resultOf (NewPostProcessingFrame d w h p) log).fb slot
              w h gl.COLOR_ATTACHMENT0]
        ∧ value = slot ∧ value = 1 := by
  obtain ⟨vb, hcs⟩ := new_calls d w h p log
  refine ⟨1, 1, ?_⟩
  rw [hcs]
  simp [ofKind, Call.kind]

/-- C7: the calls of `NewPostProcessingFrame` occur in this order: vertex buffer created,
index buffer created, that vertex buffer bound; vertex array created and bound; shader
created from the path; framebuffer created and given its color attachment; renderbuffer
created and attached to that framebuffer; and last that shader bound and the uniform set
on it.  The shader is never unbound, so whatever was bound before, it is the bound
shader when `setUniform1i`, the last call, is made. -/
theorem new_call_order (d : Driver) (w h : Nat) (p : String) (log : List Call)
    (b : Bound) :
    (∃ (vb : VertexBuffer) (ib : IndexBuffer) (va : VertexArray) (sh : Shader)
        (fb : FrameBuffer) (rb : RenderBuffer) (vs : List ℚ) (ix : List Nat) (ly : List Int),
      callsOf (NewPostProcessingFrame d w h p) log =
        [ Call.newVertexBuffer vs vb, Call.newIndexBuffer ix ib, Call.vertexBufferBind vb,
          Call.newVertexArray ly va, Call.vertexArrayBind va,
          Call.newShader p sh,
          Call.newFrameBuffer w h fb, Call.addColorTexture fb 1 w h gl.COLOR_ATTACHMENT0,
          Call.newRenderBuffer w h rb, Call.addRenderBuffer fb rb.id,
          Call.shaderBind sh, Call.setUniform1i sh "screenTexture" 1 ])
      ∧ (callsOf (NewPostProcessingFrame d w h p) log).map Call.kind =
        [ Kind.newVertexBuffer, Kind.newIndexBuffer, Kind.vertexBufferBind,
          Kind.newVertexArray, Kind.vertexArrayBind,
          Kind.newShader,
          Kind.newFrameBuffer, Kind.addColorTexture,
          Kind.newRenderBuffer, Kind.addRenderBuffer,
          Kind.shaderBind, Kind.setUniform1i ]
      ∧ ofKind Kind.shaderUnbind (callsOf (NewPostProcessingFrame d w h p) log) = []
      ∧ (b.after (callsOf (NewPostProcessingFrame d w h p) log).dropLast).shader
          = some (resultOf (NewPostProcessingFrame d w h p) log).shader := by
  obtain ⟨vb, hcs⟩ := new_calls d w h p log
  rw [hcs]
  refine ⟨⟨vb, _, _, _, _, _, _, _, _, rfl⟩, ?_⟩
  simp [ofKind, Call.kind, Bound.after, Bound.step]

/-! ## The quad's geometry -/

/-- C8: reading each quad vertex as `(x, y, u, v)`, the four positions are exactly the
four corners of the square from -1 to 1, each occurring once, and for every vertex
`u = (x + 1) / 2` and `v = (y + 1) / 2`. -/
theorem quad_positions_and_texcoords :
    ((List.range 4).map position).Nodup
      ∧ (∀ q : ℚ × ℚ, q ∈ (List.range 4).map position
          ↔ (q.1 = -1 ∨ q.1 = 1) ∧ (q.2 = -1 ∨ q.2 = 1))
      ∧ (∀ i : Fin 4, (texcoord i).1 = ((position i).1 + 1) / 2
          ∧ (texcoord i).2 = ((position i).2 + 1) / 2) := by
  obtain ⟨h0, h1, h2, h3⟩ := position_values
  refine ⟨?_, ?_, ?_⟩
  · simp [List.range, List.range.loop, h0, h1, h2, h3]
    norm_num
  · rintro ⟨x, y⟩
    simp only [List.range, List.range.loop, List.map, h0, h1, h2, h3, List.mem_cons,
      Prod.mk.injEq, List.mem_nil_iff, or_false]
    constructor
    · rintro (⟨rfl, rfl⟩ | ⟨rfl, rfl⟩ | ⟨rfl, rfl⟩ | ⟨rfl, rfl⟩) <;> simp
    · rintro ⟨rfl | rfl, rfl | rfl⟩ <;> simp
  · intro i
    fin_cases i <;>
      norm_num [texcoord, position, component, NewPostProcessingFrame.vertices]

/-- C9: the two triangles `(3, 2, 1)` and `(3, 1, 0)` have the same winding, each of
signed area 2 (counter-clockwise); their common vertices are 3 and 1, the ends of one
diagonal; together they use all four vertices; their areas sum to 4, the area of the
square from -1 to 1; every point of that square lies in one of them, each lies in the
square, and no point lies strictly inside both. -/
theorem quad_triangles_cover_square :
    triangle 0 = [3, 2, 1] ∧ triangle 1 = [3, 1, 0]
      ∧ signedArea 0 = 2 ∧ signedArea 1 = 2
      ∧ (triangle 0).filter (fun i => i ∈ triangle 1) = [3, 1]
      ∧ position 3 = (1, 1) ∧ position 1 = (-1, -1)
      ∧ (∀ i : Fin 4, i.val ∈ triangle 0 ∨ i.val ∈ triangle 1)
      ∧ signedArea 0 + signedArea 1 = (1 - (-1)) * (1 - (-1))
      ∧ (∀ q : ℚ × ℚ, (-1 ≤ q.1 ∧ q.1 ≤ 1 ∧ -1 ≤ q.2 ∧ q.2 ≤ 1)
          ↔ (inTriangle 0 q ∨ inTriangle 1 q))
      ∧ (∀ q : ℚ × ℚ, ¬ (inInterior 0 q ∧ inInterior 1 q)) := by
  obtain ⟨c00, c01, c02, c10, c11, c12⟩ := corner_values
  obtain ⟨-, h1, -, h3⟩ := position_values
  have t0 : triangle 0 = [3, 2, 1] := by simp [triangle, NewPostProcessingFrame.indices]
  have t1 : triangle 1 = [3, 1, 0] := by simp [triangle, NewPostProcessingFrame.indices]
  have a0 : signedArea 0 = 2 := by
    simp only [signedArea, orient, c00, c01, c02]; norm_num
  have a1 : signedArea 1 = 2 := by
    simp only [signedArea, orient, c10, c11, c12]; norm_num
  refine ⟨t0, t1, a0, a1, ?_, h3, h1, ?_, ?_, ?_, ?_⟩
  · rw [t0, t1]; decide
  · intro i
    rw [t0, t1]
    fin_cases i <;> simp
  · rw [a0, a1]; norm_num
  · rintro ⟨x, y⟩
    simp only [inTriangle, orient, c00, c01, c02, c10, c11, c12]
    constructor
    · rintro ⟨hx0, hx1, hy0, hy1⟩
      rcases le_total x y with hxy | hxy
      · left; refine ⟨?_, ?_, ?_⟩ <;> linarith
      · right; refine ⟨?_, ?_, ?_⟩ <;> linarith
    · rintro (⟨e1, e2, e3⟩ | ⟨e1, e2, e3⟩) <;>
        refine ⟨?_, ?_, ?_, ?_⟩ <;> linarith
  · rintro ⟨x, y⟩ ⟨⟨-, -, e3⟩, ⟨f1, -, -⟩⟩
    simp only [orient, c00, c02, c10, c11] at e3 f1
    linarith

end Atmosphere
